import Mathlib

/-!
Shallow embedding of the IoT device registry and telemetry simulator of
`src/services/iotService.ts` (class `IoTService`), together with proofs of
the structural contracts stated in the specification.

Numbers that the source manipulates with plain arithmetic and comparisons
(sensor values, accuracy figures, threshold bounds) are embedded as `ℚ`;
quantities that go through `Math.sqrt`/trigonometry (the anomaly z-score
test, the haversine distance) are compared over `ℝ`.  Time stamps
(`Date.now()` milliseconds) are `ℤ`.  Sources of nondeterminism in the
code (`Math.random()`, `crypto.randomUUID()`, the clock) are passed in as
explicit parameters, so every definition is a pure function of its inputs.
-/

namespace IoT

/-- Sensor types, from the union type in `registerDevice`'s config and
`src/types/index.ts`. -/
inductive SensorType
| temperature
| humidity
| pressure
| motion
| proximity
| gps
| accelerometer
| camera
| microphone
deriving DecidableEq, Repr

/-- Device types, from the union type in `registerDevice`'s config. -/
inductive DeviceType
| camera
| sensor
| beacon
| scanner
| display
| printer
| gateway
| vehicleUnit
deriving DecidableEq, Repr

/-- Device status values the service assigns (`'online'`/`'offline'`). -/
inductive DeviceStatus
| online
| offline
deriving DecidableEq, Repr

/-- Reading quality labels, from `assessDataQuality`'s return type. -/
inductive ReadingQuality
| excellent
| good
| fair
| poor
deriving DecidableEq, Repr

/-- Vulnerability / threshold severity labels. -/
inductive Severity
| low
| medium
| high
| critical
deriving DecidableEq, Repr

/-- Connectivity link types, from `registerDevice`'s config. -/
inductive ConnectivityType
| wifi
| cellular
| bluetooth
| lora
| zigbee
deriving DecidableEq, Repr

/-- A geographic position `{ lat, lng, address? }`.  Latitude and longitude
feed the trigonometric haversine formula, so they are real numbers. -/
structure GeoLocation where
lat : ℝ
lng : ℝ
address : Option String := none

/-- The `metadata` object `generateSensorReading` attaches to a reading. -/
structure ReadingMetadata where
deviceId : String
sensorType : SensorType
connectivity : ℚ
deriving DecidableEq, Repr

/-- A sensor reading record.  `registerDevice` creates the initial reading
with an empty metadata object, modelled as `none`; `generateSensorReading`
fills the metadata in, modelled as `some`. -/
structure SensorReading where
id : String
value : ℚ
timestamp : ℤ
quality : ReadingQuality
metadata : Option ReadingMetadata
deriving DecidableEq, Repr

/-- `calibration` block of a sensor. -/
structure CalibrationInfo where
lastCalibrated : ℤ
nextCalibration : ℤ
offset : ℚ
scale : ℚ
deriving DecidableEq, Repr

/-- A sensor owned by a device. -/
structure Sensor where
id : String
type : SensorType
unit : String
range : ℚ × ℚ
accuracy : ℚ
lastReading : SensorReading
calibration : CalibrationInfo
deriving DecidableEq, Repr

/-- `connectivity` block of a device. -/
structure ConnectivityInfo where
type : ConnectivityType
strength : ℚ
protocol : String
lastSeen : ℤ
dataUsage : ℚ

/-- `firmware` block of a device. -/
structure FirmwareInfo where
version : String
lastUpdate : ℤ
updateAvailable : Bool
autoUpdate : Bool

/-- One entry of `device.security.vulnerabilities`. -/
structure Vulnerability where
severity : Severity
description : String
cve : Option String := none
mitigation : String

/-- `security` block of a device. -/
structure DeviceSecurity where
encrypted : Bool
certificateExpiry : ℤ
lastSecurityScan : ℤ
vulnerabilities : List Vulnerability

/-- An `IoTDevice` record. -/
structure IoTDevice where
id : String
type : DeviceType
location : GeoLocation
status : DeviceStatus
sensors : List Sensor
connectivity : ConnectivityInfo
firmware : FirmwareInfo
security : DeviceSecurity

/-! ## Data quality (`assessDataQuality`) -/

/-- `assessDataQuality(value, sensor)`: the label depends only on whether
the value lies inside the sensor's declared range and on the sensor's
static accuracy figure. -/
def assessDataQuality (value : ℚ) (sensor : Sensor) : ReadingQuality :=
  if value ≥ sensor.range.1 ∧ value ≤ sensor.range.2 ∧ sensor.accuracy > 9/10 then .excellent
  else if value ≥ sensor.range.1 ∧ value ≤ sensor.range.2 ∧ sensor.accuracy > 8/10 then .good
  else if value ≥ sensor.range.1 ∧ value ≤ sensor.range.2 ∧ sensor.accuracy > 6/10 then .fair
  else .poor

/-! ## Reading synthesis (`generateSensorReading`) -/

/-- `generateSensorReading(sensor, device)`.  The random base value
(`getBaseValueForSensor`) and the noise draw `(Math.random() - 0.5) * 0.1`
are passed in as parameters, as are the fresh reading id and the clock. -/
def generateSensorReading (sensor : Sensor) (device : IoTDevice)
    (baseValue noise : ℚ) (freshId : String) (now : ℤ) : SensorReading :=
  let value : ℚ := max sensor.range.1 (min sensor.range.2 (baseValue + noise))
  { id := freshId
    value := value
    timestamp := now
    quality := assessDataQuality value sensor
    metadata := some { deviceId := device.id, sensorType := sensor.type,
                       connectivity := device.connectivity.strength } }

/-! ## Bounded history (`collectSensorData`, store step) -/

/-- The store step of `collectSensorData` for one reading: push the reading
onto the device's history, then `splice(0, length - 1000)` whenever the
history exceeds 1000 entries (keeping the last 1000). -/
def pushReading (hist : List SensorReading) (r : SensorReading) : List SensorReading :=
  let h := hist ++ [r]
  if h.length > 1000 then h.drop (h.length - 1000) else h

/-! ## Threshold table (`checkThresholds`) -/

/-- One row of the threshold lookup table. -/
structure ThresholdEntry where
min : ℚ
max : ℚ
severity : Severity
deriving DecidableEq, Repr

/-- The fixed `thresholds` table of `checkThresholds`, keyed by sensor
type; sensor types absent from the object map to `none`. -/
def thresholdTable (t : SensorType) : Option ThresholdEntry :=
  match t with
  | .temperature => some { min := -10, max := 40, severity := .medium }
  | .humidity => some { min := 20, max := 80, severity := .low }
  | .motion => some { min := 0, max := 80, severity := .high }
  | .microphone => some { min := 0, max := 85, severity := .medium }
  | _ => none

/-- `checkThresholds(sensor, reading)`: look the sensor type up in the
fixed table, return the table row when the value is out of band, `null`
(here `none`) otherwise. -/
def checkThresholds (sensor : Sensor) (reading : SensorReading) : Option ThresholdEntry :=
  match thresholdTable sensor.type with
  | none => none
  | some threshold =>
      if reading.value < threshold.min ∨ reading.value > threshold.max then some threshold
      else none

/-! ## Anomaly detection (`detectAnomaly`) -/

/-- The fold `recentReadings.reduce((sum, r) => sum + r.value, 0)`. -/
def sumValues (l : List SensorReading) : ℚ :=
  l.foldl (fun s r => s + r.value) 0

/-- `readings.slice(-10)`: the last (up to) ten entries, in order. -/
def recentSlice (l : List SensorReading) : List SensorReading :=
  l.drop (l.length - 10)

/-- The `average` local of `detectAnomaly`. -/
def rollingMean (l : List SensorReading) : ℚ :=
  sumValues l / l.length

/-- The fold `recentReadings.reduce((sum, r) => sum + Math.pow(r.value - average, 2), 0)`. -/
def sumSquaredDeviations (l : List SensorReading) (avg : ℚ) : ℚ :=
  l.foldl (fun s r => s + (r.value - avg) ^ 2) 0

/-- The radicand of the `stdDev` local of `detectAnomaly`. -/
def rollingVariance (l : List SensorReading) : ℚ :=
  sumSquaredDeviations l (rollingMean l) / l.length

/-- `detectAnomaly(deviceId, sensorId, reading)`, as a predicate on the
device's stored reading history (the value of `sensorReadings.get(deviceId)`
at call time, which `collectSensorData` has already extended with the new
reading) and the new reading.  The `sensorId` argument is unused by the
source.  Returns `False` when fewer than 5 recent readings exist; otherwise
compares the new value's absolute deviation from the rolling mean with
twice the rolling standard deviation (`Math.sqrt` of the variance). -/
def detectAnomaly (readings : List SensorReading) (reading : SensorReading) : Prop :=
  let recent := recentSlice readings
  if recent.length < 5 then False
  else |(reading.value : ℝ) - (rollingMean recent : ℝ)| >
        2 * Real.sqrt ((rollingVariance recent : ℝ))

/-- Modelled from the claim's words, for comparison with `detectAnomaly`:
the readings "for that sensor" within a device history, attributed through
the `sensorType` metadata field that `generateSensorReading` stamps on
every synthesized reading. -/
def readingsOfSensor (readings : List SensorReading) (sensor : Sensor) : List SensorReading :=
  readings.filter (fun r =>
    match r.metadata with
    | some m => m.sensorType == sensor.type
    | none => false)

/-- Modelled from the claim's words, for comparison with `detectAnomaly`:
the new reading deviates from the mean of the last 10 readings *of that
sensor* by more than twice their standard deviation. -/
def anomalyPerSensorClaim (readings : List SensorReading) (sensor : Sensor)
    (reading : SensorReading) : Prop :=
  let recent := recentSlice (readingsOfSensor readings sensor)
  |(reading.value : ℝ) - (rollingMean recent : ℝ)| >
    2 * Real.sqrt ((rollingVariance recent : ℝ))

/-! ## Registration (`registerDevice`) -/

/-- One element of `deviceConfig.sensors`. -/
structure SensorConfig where
type : SensorType
unit : String
range : ℚ × ℚ
accuracy : ℚ

/-- `deviceConfig.connectivity`. -/
structure ConnectivityConfig where
type : ConnectivityType
strength : ℚ
protocol : String

/-- The `deviceConfig` argument of `registerDevice`. -/
structure DeviceConfig where
type : DeviceType
location : GeoLocation
sensors : List SensorConfig
connectivity : ConnectivityConfig

/-- The sensor record `registerDevice` builds from one sensor config:
zero-valued initial reading, calibration window 30 days from now. -/
def mkRegisteredSensor (sensorConfig : SensorConfig) (sensorId readingId : String)
    (now : ℤ) : Sensor :=
  { id := sensorId
    type := sensorConfig.type
    unit := sensorConfig.unit
    range := sensorConfig.range
    accuracy := sensorConfig.accuracy
    lastReading := { id := readingId, value := 0, timestamp := now,
                     quality := .good, metadata := none }
    calibration := { lastCalibrated := now,
                     nextCalibration := now + 30 * 24 * 60 * 60 * 1000,
                     offset := 0, scale := 1 } }

/-- `registerDevice(deviceConfig)`.  The `crypto.randomUUID()` calls are
modelled by the supplied fresh device id and the per-index id streams for
sensors and their initial readings; `Date.now()`/`new Date()` by `now`.
The function is total: the source has no validation and no error path. -/
def registerDevice (config : DeviceConfig) (deviceId : String)
    (sensorIds readingIds : ℕ → String) (now : ℤ) : IoTDevice :=
  { id := deviceId
    type := config.type
    location := config.location
    status := .online
    sensors := config.sensors.enum.map
      (fun p => mkRegisteredSensor p.2 (sensorIds p.1) (readingIds p.1) now)
    connectivity := { type := config.connectivity.type
                      strength := config.connectivity.strength
                      protocol := config.connectivity.protocol
                      lastSeen := now, dataUsage := 0 }
    firmware := { version := "1.0.0", lastUpdate := now,
                  updateAvailable := false, autoUpdate := true }
    security := { encrypted := true
                  certificateExpiry := now + 365 * 24 * 60 * 60 * 1000
                  lastSecurityScan := now
                  vulnerabilities := [] } }

/-! ## Service state and the by-id operations -/

/-- A handler closed over `deviceId` and `functionCode`, as registered by
`deployEdgeFunction` for each trigger. -/
structure EdgeHandler where
deviceId : String
functionCode : String
deriving DecidableEq, Repr

/-- The mutable fields of the `IoTService` class: the device registry, the
per-device reading histories, and the event handler table (all JS `Map`s,
modelled as association lists keyed by the map key). -/
structure ServiceState where
devices : List (String × IoTDevice)
sensorReadings : List (String × List SensorReading)
eventHandlers : List (String × List EdgeHandler)

/-- `addEventListener(eventType, handler)`: create the handler list on
first use, then push the handler. -/
def addEventListenerSt (st : ServiceState) (eventType : String) (handler : EdgeHandler) :
    ServiceState :=
  { st with eventHandlers :=
      match st.eventHandlers.lookup eventType with
      | none => st.eventHandlers ++ [(eventType, [handler])]
      | some hs => st.eventHandlers.map
          (fun p => if p.1 == eventType then (p.1, hs ++ [handler]) else p) }

/-- `deployEdgeFunction(deviceId, functionCode, triggers)`: throws
`Device not found` when the registry has no such id (leaving the state as
it was), otherwise registers one handler per trigger. -/
def deployEdgeFunction (st : ServiceState) (deviceId functionCode : String)
    (triggers : List String) : ServiceState × Except String Unit :=
  match st.devices.lookup deviceId with
  | none => (st, .error "Device not found")
  | some _ =>
      (triggers.foldl
        (fun s trigger =>
          addEventListenerSt s trigger { deviceId := deviceId, functionCode := functionCode })
        st, .ok ())

/-- `calculateSecurityScore(vulnerabilities)`: 100 minus a per-severity
penalty for each vulnerability, floored at 0. -/
def calculateSecurityScore (vulnerabilities : List Vulnerability) : ℚ :=
  let penalty : Severity → ℚ := fun s =>
    match s with
    | .low => 5
    | .medium => 15
    | .high => 30
    | .critical => 50
  max 0 (vulnerabilities.foldl (fun score v => score - penalty v.severity) 100)

/-- `generateSecurityRecommendations(vulnerabilities)`. -/
def generateSecurityRecommendations (vulnerabilities : List Vulnerability) : List String :=
  let recommendations := ["Enable automatic security updates"]
  if vulnerabilities.any (fun v => v.severity == .critical) then
    recommendations ++ ["Isolate device until critical vulnerabilities are patched"]
  else recommendations

/-- The record `performSecurityScan` resolves with. -/
structure SecurityScanReport where
vulnerabilities : List Vulnerability
score : ℚ
recommendations : List String

/-- Replace the device stored under `deviceId` (the JS code mutates the
object held by the map in place). -/
def setDevice (devices : List (String × IoTDevice)) (deviceId : String)
    (device : IoTDevice) : List (String × IoTDevice) :=
  devices.map (fun p => if p.1 == deviceId then (p.1, device) else p)

/-- `performSecurityScan(deviceId)`: throws `Device not found` when the id
is unregistered (state unchanged); otherwise records the scan outcome
(`scanForVulnerabilities` is a random simulation, passed in as `scanned`)
on the device and returns the report. -/
def performSecurityScan (st : ServiceState) (deviceId : String)
    (scanned : List Vulnerability) (now : ℤ) :
    ServiceState × Except String SecurityScanReport :=
  match st.devices.lookup deviceId with
  | none => (st, .error "Device not found")
  | some device =>
      let device' := { device with security :=
        { device.security with lastSecurityScan := now, vulnerabilities := scanned } }
      ({ st with devices := setDevice st.devices deviceId device' },
       .ok { vulnerabilities := scanned
             score := calculateSecurityScore scanned
             recommendations := generateSecurityRecommendations scanned })

/-- `getLatestFirmwareVersion(deviceType)`: the source returns the constant
string for every device type. -/
def getLatestFirmwareVersion (_deviceType : DeviceType) : String := "2.1.0"

/-- `updateDeviceFirmware(deviceId, version?)`: throws `Device not found`
when the id is unregistered (state unchanged); otherwise installs the
requested version, or the latest one when none is given. -/
def updateDeviceFirmware (st : ServiceState) (deviceId : String)
    (version : Option String) (now : ℤ) : ServiceState × Except String Unit :=
  match st.devices.lookup deviceId with
  | none => (st, .error "Device not found")
  | some device =>
      let targetVersion :=
        match version with
        | some v => v
        | none => getLatestFirmwareVersion device.type
      let device' := { device with firmware :=
        { device.firmware with version := targetVersion, lastUpdate := now,
                               updateAvailable := false } }
      ({ st with devices := setDevice st.devices deviceId device' }, .ok ())

/-! ## Distance and filtered lookup (`calculateDistance`, `getDevices`) -/

/-- `Math.atan2(y, x)` on real inputs (the signed-zero distinctions of IEEE
`atan2` collapse at the single real zero). -/
noncomputable def atan2 (y x : ℝ) : ℝ :=
  if 0 < x then Real.arctan (y / x)
  else if x < 0 then
    (if 0 ≤ y then Real.arctan (y / x) + Real.pi else Real.arctan (y / x) - Real.pi)
  else if 0 < y then Real.pi / 2
  else if y < 0 then -(Real.pi / 2)
  else 0

/-- `calculateDistance(loc1, loc2)`: the haversine great-circle distance in
kilometres. -/
noncomputable def calculateDistance (loc1 loc2 : GeoLocation) : ℝ :=
  let dLat := (loc2.lat - loc1.lat) * Real.pi / 180
  let dLng := (loc2.lng - loc1.lng) * Real.pi / 180
  let a := Real.sin (dLat / 2) * Real.sin (dLat / 2) +
      Real.cos (loc1.lat * Real.pi / 180) * Real.cos (loc2.lat * Real.pi / 180) *
      Real.sin (dLng / 2) * Real.sin (dLng / 2)
  let c := 2 * atan2 (Real.sqrt a) (Real.sqrt (1 - a))
  6371 * c

/-- The `location` filter of `getDevices`. -/
structure LocationFilter where
lat : ℝ
lng : ℝ
radius : ℝ

/-- The optional `filters` argument of `getDevices`. -/
structure DeviceFilters where
type? : Option DeviceType := none
status? : Option DeviceStatus := none
location? : Option LocationFilter := none

/-- `getDevices(filters?)` over the registry's device list
(`Array.from(this.devices.values())`): the three independent predicates
applied in source order. -/
noncomputable def getDevices (devices : List IoTDevice) (filters : Option DeviceFilters) :
    List IoTDevice :=
  match filters with
  | none => devices
  | some f =>
      let d1 := match f.type? with
        | none => devices
        | some t => devices.filter (fun d => decide (d.type = t))
      let d2 := match f.status? with
        | none => d1
        | some s => d1.filter (fun d => decide (d.status = s))
      match f.location? with
      | none => d2
      | some lf => d2.filter (fun d =>
          decide (calculateDistance d.location { lat := lf.lat, lng := lf.lng } ≤ lf.radius))

/-! ## Concrete fixtures used to instantiate theorems with hypotheses -/

/-- A concrete temperature sensor with range `[0, 10]` and accuracy `1`. -/
def tempSensor : Sensor :=
  { id := "sensor-a", type := .temperature, unit := "C", range := (0, 10), accuracy := 1
    lastReading := { id := "r0", value := 0, timestamp := 0, quality := .good, metadata := none }
    calibration := { lastCalibrated := 0, nextCalibration := 2592000000, offset := 0, scale := 1 } }

/-- The same sensor under a different identity. -/
def tempSensorB : Sensor := { tempSensor with id := "sensor-b" }

/-- A pressure sensor (a type with no entry in the threshold table). -/
def pressureSensor : Sensor := { tempSensor with id := "sensor-p", type := SensorType.pressure }

/-- A concrete reading carrying the given value. -/
def sampleReading (v : ℚ) : SensorReading :=
  { id := "r", value := v, timestamp := 0, quality := .good, metadata := none }

/-- A concrete registered device. -/
def sampleDevice : IoTDevice :=
  registerDevice
    { type := .sensor, location := { lat := 0, lng := 0 }
      sensors := [{ type := .temperature, unit := "C", range := (0, 10), accuracy := 1 }]
      connectivity := { type := .wifi, strength := 85, protocol := "WiFi 6" } }
    "device-1" (fun _ => "sid") (fun _ => "rid") 0

/-- Modelled from the spec's words, for comparison with the source's fold:
the mean "over the last 10 readings" as a plain sum over the list. -/
def specMean (l : List SensorReading) : ℚ :=
  (l.map (fun rd => rd.value)).sum / l.length

/-- Modelled from the spec's words, for comparison with the source's fold:
the standard deviation over the same readings. -/
noncomputable def specStdDev (l : List SensorReading) : ℝ :=
  Real.sqrt (((l.map (fun rd => (rd.value - specMean l) ^ 2)).sum / l.length : ℚ) : ℝ)

/-- A reading stamped with the metadata `generateSensorReading` attaches,
carrying the sensor type it came from. -/
def mkReadingMeta (v : ℚ) (t : SensorType) : SensorReading :=
  { id := "m", value := v, timestamp := 0, quality := .good
    metadata := some { deviceId := "device-1", sensorType := t, connectivity := 85 } }

/-- A device history mixing two sensors of one device: five temperature
readings of value 0, nine humidity readings of value 100, then the newly
pushed temperature reading of value 0. -/
def cexHistory : List SensorReading :=
  [mkReadingMeta 0 .temperature, mkReadingMeta 0 .temperature, mkReadingMeta 0 .temperature,
   mkReadingMeta 0 .temperature, mkReadingMeta 0 .temperature,
   mkReadingMeta 100 .humidity, mkReadingMeta 100 .humidity, mkReadingMeta 100 .humidity,
   mkReadingMeta 100 .humidity, mkReadingMeta 100 .humidity, mkReadingMeta 100 .humidity,
   mkReadingMeta 100 .humidity, mkReadingMeta 100 .humidity, mkReadingMeta 100 .humidity,
   mkReadingMeta 0 .temperature]

/-- A five-entry history used to instantiate the anomaly characterization. -/
def fiveHistory : List SensorReading :=
  [sampleReading 1, sampleReading 2, sampleReading 3, sampleReading 4, sampleReading 5]

/-- The newly synthesized temperature reading of the counterexample. -/
def cexNew : SensorReading := mkReadingMeta 0 .temperature

/-- The device history before the counterexample's poll step pushes
`cexNew`: five temperature readings of value 0 and nine humidity readings
of value 100, all belonging to the same device. -/
def cexPrior : List SensorReading :=
  [mkReadingMeta 0 .temperature, mkReadingMeta 0 .temperature, mkReadingMeta 0 .temperature,
   mkReadingMeta 0 .temperature, mkReadingMeta 0 .temperature,
   mkReadingMeta 100 .humidity, mkReadingMeta 100 .humidity, mkReadingMeta 100 .humidity,
   mkReadingMeta 100 .humidity, mkReadingMeta 100 .humidity, mkReadingMeta 100 .humidity,
   mkReadingMeta 100 .humidity, mkReadingMeta 100 .humidity, mkReadingMeta 100 .humidity]

/-- The last ten entries of `cexHistory`: nine humidity readings and the
new temperature reading. -/
def cexRecent : List SensorReading :=
  [mkReadingMeta 100 .humidity, mkReadingMeta 100 .humidity, mkReadingMeta 100 .humidity,
   mkReadingMeta 100 .humidity, mkReadingMeta 100 .humidity, mkReadingMeta 100 .humidity,
   mkReadingMeta 100 .humidity, mkReadingMeta 100 .humidity, mkReadingMeta 100 .humidity,
   mkReadingMeta 0 .temperature]

/-- The temperature readings inside `cexHistory`. -/
def cexTempReadings : List SensorReading :=
  [mkReadingMeta 0 .temperature, mkReadingMeta 0 .temperature, mkReadingMeta 0 .temperature,
   mkReadingMeta 0 .temperature, mkReadingMeta 0 .temperature, mkReadingMeta 0 .temperature]

/-! ## Claim C1: synthesized readings stay inside the declared range -/

/-- Claim C1: for every sensor, device, base value and noise draw, the
reading `generateSensorReading` synthesizes has its value inside the
sensor's declared range `[range.1, range.2]`, provided the range is
well formed (`range.1 ≤ range.2`): the base value plus noise is clamped
into the range. -/
theorem generateSensorReading_value_in_range (sensor : Sensor) (device : IoTDevice)
    (baseValue noise : ℚ) (freshId : String) (now : ℤ)
    (h : sensor.range.1 ≤ sensor.range.2) :
    sensor.range.1 ≤ (generateSensorReading sensor device baseValue noise freshId now).value ∧
    (generateSensorReading sensor device baseValue noise freshId now).value ≤ sensor.range.2 := by
  have hv : (generateSensorReading sensor device baseValue noise freshId now).value =
      max sensor.range.1 (min sensor.range.2 (baseValue + noise)) := rfl
  rw [hv]
  exact ⟨le_max_left _ _, max_le h (min_le_left _ _)⟩

/-- Claim C1, instantiated: the temperature sensor's range is well formed
and a concrete synthesized reading lands inside it. -/
theorem generateSensorReading_value_in_range_witness :
    tempSensor.range.1 ≤ tempSensor.range.2 ∧
    (tempSensor.range.1 ≤
        (generateSensorReading tempSensor sampleDevice 5 (1/2) "r1" 0).value ∧
      (generateSensorReading tempSensor sampleDevice 5 (1/2) "r1" 0).value ≤
        tempSensor.range.2) :=
  ⟨by norm_num [tempSensor],
   generateSensorReading_value_in_range tempSensor sampleDevice 5 (1/2) "r1" 0
     (by norm_num [tempSensor])⟩

/-! ## Claim C2: bounded FIFO history -/

/-- The store step caps the history at exactly `min (n + 1) 1000` entries. -/
theorem pushReading_length (hist : List SensorReading) (r : SensorReading) :
    (pushReading hist r).length = min (hist.length + 1) 1000 := by
  simp only [pushReading]
  split
  · rename_i h
    simp only [List.length_drop, List.length_append, List.length_singleton] at *
    omega
  · rename_i h
    simp only [List.length_append, List.length_singleton] at *
    omega

/-- The store step keeps exactly a suffix of the appended history: the
oldest entries are dropped, survivors keep their insertion order. -/
theorem pushReading_eq_drop (hist : List SensorReading) (r : SensorReading) :
    pushReading hist r = (hist ++ [r]).drop (hist.length + 1 - 1000) := by
  simp only [pushReading]
  split
  · rename_i h
    simp only [List.length_append, List.length_singleton]
  · rename_i h
    simp only [List.length_append, List.length_singleton, Nat.lt_irrefl, not_lt] at h
    have h0 : hist.length + 1 - 1000 = 0 := by omega
    rw [h0, List.drop_zero]

/-- Iterating the store step from the empty history never exceeds the cap. -/
theorem foldl_pushReading_length_le (cycle : List SensorReading)
    (hist : List SensorReading) (h : hist.length ≤ 1000) :
    (cycle.foldl pushReading hist).length ≤ 1000 := by
  induction cycle generalizing hist with
  | nil => simpa using h
  | cons r rest ih =>
      simp only [List.foldl_cons]
      exact ih _ (by rw [pushReading_length]; omega)

/-- Claim C2: after the store step of a poll the history holds at most
1000 entries; when entries are evicted the oldest go first, so the result
is exactly the most recent entries of the appended history in insertion
order (a suffix); and iterating polls from the empty history registration
creates keeps the bound. -/
theorem history_bounded_fifo (hist : List SensorReading) (r : SensorReading)
    (cycle : List SensorReading) :
    (pushReading hist r).length ≤ 1000 ∧
    pushReading hist r = (hist ++ [r]).drop (hist.length + 1 - 1000) ∧
    List.IsSuffix (pushReading hist r) (hist ++ [r]) ∧
    (cycle.foldl pushReading []).length ≤ 1000 := by
  refine ⟨?_, pushReading_eq_drop hist r, ?_, ?_⟩
  · rw [pushReading_length]; omega
  · rw [pushReading_eq_drop]; exact List.drop_suffix _ _
  · exact foldl_pushReading_length_le cycle [] (by simp)

/-! ## Claim C6: shape of a freshly registered device -/

/-- Claim C6: `registerDevice` is a total function (no error path) and the
device it returns has exactly one sensor per sensor config, status
`online`, the supplied fresh identifier, and every sensor carries a
zero-valued initial reading and a next-calibration date 30 days
(in milliseconds) after registration. -/
theorem registerDevice_shape (config : DeviceConfig) (deviceId : String)
    (sensorIds readingIds : ℕ → String) (now : ℤ) :
    (registerDevice config deviceId sensorIds readingIds now).sensors.length =
        config.sensors.length ∧
    (registerDevice config deviceId sensorIds readingIds now).status = .online ∧
    (registerDevice config deviceId sensorIds readingIds now).id = deviceId ∧
    ∀ s ∈ (registerDevice config deviceId sensorIds readingIds now).sensors,
      s.lastReading.value = 0 ∧
      s.calibration.nextCalibration = now + 30 * 24 * 60 * 60 * 1000 := by
  refine ⟨?_, rfl, rfl, ?_⟩
  · simp [registerDevice, List.enum_length]
  · intro s hs
    simp only [registerDevice] at hs
    rcases List.mem_map.mp hs with ⟨p, _, rfl⟩
    exact ⟨rfl, rfl⟩

/-! ## Claim C7: the threshold check is deterministic -/

/-- Claim C7: `checkThresholds` depends only on the sensor's type and the
reading's value: two invocations agreeing on those return the same
verdict, independent of any other state. -/
theorem checkThresholds_deterministic (s₁ s₂ : Sensor) (r₁ r₂ : SensorReading)
    (htype : s₁.type = s₂.type) (hval : r₁.value = r₂.value) :
    checkThresholds s₁ r₁ = checkThresholds s₂ r₂ := by
  simp only [checkThresholds, htype, hval]

/-- Claim C7, instantiated: two distinct sensor records of the same type
and two distinct readings of the same value get the same verdict. -/
theorem checkThresholds_deterministic_witness :
    tempSensor.type = tempSensorB.type ∧ (sampleReading 5).value = (sampleReading 5).value ∧
    checkThresholds tempSensor (sampleReading 5) =
      checkThresholds tempSensorB (sampleReading 5) :=
  ⟨rfl, rfl, checkThresholds_deterministic tempSensor tempSensorB _ _ rfl rfl⟩

/-! ## Claim C8: quality labels come from accuracy and range only -/

/-- Claim C8: the quality label of a reading is a function of the sensor's
static accuracy and of whether the value lies in the declared range —
excellent when in range with accuracy above 0.9, good when in range with
accuracy above 0.8 (but not above 0.9), fair when in range with accuracy
above 0.6 (but not above 0.8), poor otherwise; and any sensor agreeing on
range and accuracy yields the same label (no other input matters). -/
theorem assessDataQuality_characterization (v : ℚ) (s : Sensor) :
    (assessDataQuality v s = .excellent ↔
        (s.range.1 ≤ v ∧ v ≤ s.range.2) ∧ 9/10 < s.accuracy) ∧
    (assessDataQuality v s = .good ↔
        (s.range.1 ≤ v ∧ v ≤ s.range.2) ∧ 8/10 < s.accuracy ∧ ¬ 9/10 < s.accuracy) ∧
    (assessDataQuality v s = .fair ↔
        (s.range.1 ≤ v ∧ v ≤ s.range.2) ∧ 6/10 < s.accuracy ∧ ¬ 8/10 < s.accuracy) ∧
    (assessDataQuality v s = .poor ↔
        ¬ ((s.range.1 ≤ v ∧ v ≤ s.range.2) ∧ 6/10 < s.accuracy)) ∧
    ∀ s' : Sensor, s'.range = s.range → s'.accuracy = s.accuracy →
      assessDataQuality v s' = assessDataQuality v s := by
  have ha1 : (9:ℚ)/10 < s.accuracy → (8:ℚ)/10 < s.accuracy := fun h => by linarith
  have ha2 : (8:ℚ)/10 < s.accuracy → (6:ℚ)/10 < s.accuracy := fun h => by linarith
  have hdet : ∀ s' : Sensor, s'.range = s.range → s'.accuracy = s.accuracy →
      assessDataQuality v s' = assessDataQuality v s := by
    intro s' hr ha
    unfold assessDataQuality
    rw [hr, ha]
  refine ⟨?_, ?_, ?_, ?_, hdet⟩ <;>
  · unfold assessDataQuality
    split_ifs with h1 h2 h3 <;> simp_all

/-! ## Claim C10: sensor types outside the table never violate -/

/-- Claim C10: a sensor whose type has no row in the fixed threshold table
(pressure, proximity, gps, accelerometer, camera) gets no threshold
violation for any reading value, so it can never raise a threshold
event. -/
theorem checkThresholds_none_for_untabled_types (s : Sensor) (r : SensorReading)
    (h : s.type = .pressure ∨ s.type = .proximity ∨ s.type = .gps ∨
         s.type = .accelerometer ∨ s.type = .camera) :
    checkThresholds s r = none := by
  rcases h with h | h | h | h | h <;> simp [checkThresholds, thresholdTable, h]

/-- Claim C10, instantiated: the pressure sensor never reports a threshold
violation, here at value 5. -/
theorem checkThresholds_none_for_untabled_types_witness :
    (pressureSensor.type = .pressure ∨ pressureSensor.type = .proximity ∨
      pressureSensor.type = .gps ∨ pressureSensor.type = .accelerometer ∨
      pressureSensor.type = .camera) ∧
    checkThresholds pressureSensor (sampleReading 5) = none :=
  ⟨Or.inl rfl,
   checkThresholds_none_for_untabled_types pressureSensor (sampleReading 5) (Or.inl rfl)⟩

/-! ## Claim C5: the radius filter is exactly boundary-inclusive haversine -/

/-- Claim C5: `getDevices` with a radius filter returns exactly the devices
whose haversine distance to the query point is at most the radius; the
boundary is included (distance exactly the radius is kept) and anything
strictly farther is excluded. -/
theorem getDevices_radius_filter (devices : List IoTDevice) (lf : LocationFilter)
    (d : IoTDevice) :
    (d ∈ getDevices devices (some { type? := none, status? := none, location? := some lf }) ↔
      d ∈ devices ∧
        calculateDistance d.location { lat := lf.lat, lng := lf.lng } ≤ lf.radius) ∧
    (d ∈ devices →
      calculateDistance d.location { lat := lf.lat, lng := lf.lng } = lf.radius →
      d ∈ getDevices devices (some { type? := none, status? := none, location? := some lf })) ∧
    (lf.radius < calculateDistance d.location { lat := lf.lat, lng := lf.lng } →
      d ∉ getDevices devices (some { type? := none, status? := none, location? := some lf })) := by
  have hmem : d ∈ getDevices devices
        (some { type? := none, status? := none, location? := some lf }) ↔
      d ∈ devices ∧
        calculateDistance d.location { lat := lf.lat, lng := lf.lng } ≤ lf.radius := by
    simp [getDevices, List.mem_filter]
  refine ⟨hmem, fun hd he => hmem.mpr ⟨hd, le_of_eq he⟩, fun hgt hc => ?_⟩
  exact absurd (hmem.mp hc).2 (not_le.mpr hgt)

/-! ## Claim C9: by-id operations throw exactly on a missing device -/

/-- Claim C9: `deployEdgeFunction`, `performSecurityScan` and
`updateDeviceFirmware` reject with the error message `Device not found`
exactly when the registry holds no device under the given id, and a
rejected call leaves the whole service state (in particular the registry)
unchanged. -/
theorem byId_ops_device_not_found (st : ServiceState) (deviceId functionCode : String)
    (triggers : List String) (scanned : List Vulnerability) (version : Option String)
    (now : ℤ) :
    ((deployEdgeFunction st deviceId functionCode triggers).2 =
        Except.error "Device not found" ↔ st.devices.lookup deviceId = none) ∧
    ((performSecurityScan st deviceId scanned now).2 =
        Except.error "Device not found" ↔ st.devices.lookup deviceId = none) ∧
    ((updateDeviceFirmware st deviceId version now).2 =
        Except.error "Device not found" ↔ st.devices.lookup deviceId = none) ∧
    (st.devices.lookup deviceId = none →
      (deployEdgeFunction st deviceId functionCode triggers).1 = st ∧
      (performSecurityScan st deviceId scanned now).1 = st ∧
      (updateDeviceFirmware st deviceId version now).1 = st) := by
  rcases h : st.devices.lookup deviceId with _ | device <;>
    simp [deployEdgeFunction, performSecurityScan, updateDeviceFirmware, h]

/-! ## Claim C3: no anomaly with fewer than five prior readings -/

/-- A list of length four is an explicit four-element list. -/
theorem exists_len_four (l : List SensorReading) (h : l.length = 4) :
    ∃ a b c d, l = [a, b, c, d] := by
  rcases l with _ | ⟨a, l⟩
  · simp only [List.length_nil] at h
    omega
  rcases l with _ | ⟨b, l⟩
  · simp only [List.length_cons, List.length_nil] at h
    omega
  rcases l with _ | ⟨c, l⟩
  · simp only [List.length_cons, List.length_nil] at h
    omega
  rcases l with _ | ⟨d, l⟩
  · simp only [List.length_cons, List.length_nil] at h
    omega
  rcases l with _ | ⟨e, l⟩
  · exact ⟨a, b, c, d, rfl⟩
  · simp only [List.length_cons] at h
    omega

/-- Taking square roots in `|u| ≤ 2 * sqrt v`. -/
theorem abs_le_two_sqrt {u v : ℝ} (h : u ^ 2 ≤ 4 * v) : |u| ≤ 2 * Real.sqrt v := by
  have h4 : Real.sqrt (4 * v) = 2 * Real.sqrt v := by
    rw [show (4:ℝ) = 2 ^ 2 by norm_num, Real.sqrt_mul (by positivity) v,
      Real.sqrt_sq (by norm_num)]
  calc |u| = Real.sqrt (u ^ 2) := (Real.sqrt_sq_eq_abs u).symm
    _ ≤ Real.sqrt (4 * v) := Real.sqrt_le_sqrt h
    _ = 2 * Real.sqrt v := h4

/-- Samuelson's bound for five samples: no sample of a five-element list
deviates from the mean by more than twice the population standard
deviation (here stated squared, for the last sample). -/
theorem samuelson_five (a b c d x : ℚ) :
    (x - (a + b + c + d + x) / 5) ^ 2 ≤
      4 * (((a - (a + b + c + d + x) / 5) ^ 2 + (b - (a + b + c + d + x) / 5) ^ 2 +
            (c - (a + b + c + d + x) / 5) ^ 2 + (d - (a + b + c + d + x) / 5) ^ 2 +
            (x - (a + b + c + d + x) / 5) ^ 2) / 5) := by
  nlinarith [sq_nonneg (a - b), sq_nonneg (a - c), sq_nonneg (a - d),
             sq_nonneg (b - c), sq_nonneg (b - d), sq_nonneg (c - d)]

/-- Claim C3: when fewer than 5 prior readings exist for the device, the
anomaly check on a newly pushed reading returns false regardless of the
reading's value.  With at most 3 priors the guard `length < 5` fires
(the history already contains the new reading); with exactly 4 priors the
statistics run over 5 readings that include the new one, and Samuelson's
inequality caps its deviation at exactly twice the standard deviation,
below the strict `>` the source requires. -/
theorem detectAnomaly_skips_few_prior (hist : List SensorReading) (r : SensorReading)
    (h : hist.length < 5) :
    ¬ detectAnomaly (pushReading hist r) r := by
  have hpush : pushReading hist r = hist ++ [r] := by
    rw [pushReading_eq_drop]
    have h0 : hist.length + 1 - 1000 = 0 := by omega
    rw [h0, List.drop_zero]
  rw [hpush]
  by_cases h4 : hist.length = 4
  · obtain ⟨r1, r2, r3, r4, rfl⟩ := exists_len_four hist h4
    have hr5 : recentSlice [r1, r2, r3, r4, r] = [r1, r2, r3, r4, r] := rfl
    have hform : detectAnomaly ([r1, r2, r3, r4] ++ [r]) r ↔
        |(r.value : ℝ) - (rollingMean [r1, r2, r3, r4, r] : ℝ)| >
          2 * Real.sqrt ((rollingVariance [r1, r2, r3, r4, r] : ℝ)) := by
      simp only [detectAnomaly, List.cons_append, List.nil_append, hr5]
      norm_num
    rw [hform]
    push_neg
    apply abs_le_two_sqrt
    have hq : (r.value - rollingMean [r1, r2, r3, r4, r]) ^ 2 ≤
        4 * rollingVariance [r1, r2, r3, r4, r] := by
      have hs := samuelson_five r1.value r2.value r3.value r4.value r.value
      simp only [rollingVariance, sumSquaredDeviations, rollingMean, sumValues,
        List.foldl_cons, List.foldl_nil, List.length_cons, List.length_nil]
      push_cast
      linarith [hs]
    calc ((r.value : ℝ) - (rollingMean [r1, r2, r3, r4, r] : ℝ)) ^ 2
        = (((r.value - rollingMean [r1, r2, r3, r4, r] : ℚ)) : ℝ) ^ 2 := by
          push_cast; ring
      _ ≤ ((4 * rollingVariance [r1, r2, r3, r4, r] : ℚ) : ℝ) := by exact_mod_cast hq
      _ = 4 * ((rollingVariance [r1, r2, r3, r4, r] : ℚ) : ℝ) := by push_cast; ring
  · have hlt : (recentSlice (hist ++ [r])).length < 5 := by
      unfold recentSlice
      simp only [List.length_drop, List.length_append, List.length_singleton]
      omega
    simp only [detectAnomaly, if_pos hlt, not_false_eq_true]

/-- Claim C3, instantiated: with an empty prior history, the poll's
anomaly check on the new reading returns false. -/
theorem detectAnomaly_skips_few_prior_witness :
    ([] : List SensorReading).length < 5 ∧
    ¬ detectAnomaly (pushReading [] (sampleReading 5)) (sampleReading 5) :=
  ⟨by norm_num, detectAnomaly_skips_few_prior [] (sampleReading 5) (by norm_num)⟩

/-! ## Claim C4: the anomaly verdict is the rolling z-score test -/

/-- The source's running-sum fold equals the plain sum of the values. -/
theorem foldl_add_value (l : List SensorReading) (acc : ℚ) :
    l.foldl (fun s rd => s + rd.value) acc = acc + (l.map (fun rd => rd.value)).sum := by
  induction l generalizing acc with
  | nil => simp
  | cons r t ih => simp [ih, add_assoc]

/-- The source's squared-deviation fold equals the plain sum. -/
theorem foldl_add_sqdev (l : List SensorReading) (avg acc : ℚ) :
    l.foldl (fun s rd => s + (rd.value - avg) ^ 2) acc =
      acc + (l.map (fun rd => (rd.value - avg) ^ 2)).sum := by
  induction l generalizing acc with
  | nil => simp
  | cons r t ih => simp [ih, add_assoc]

/-- Claim C4, amended to the device-level history the source actually
uses: when at least 5 readings are in the (at most ten-element) window,
the anomaly check flags the reading as anomalous exactly when its absolute
deviation from the mean of the last 10 readings stored for the device
exceeds twice their standard deviation. -/
theorem detectAnomaly_iff_zscore (hist : List SensorReading) (r : SensorReading)
    (h : 5 ≤ (recentSlice hist).length) :
    detectAnomaly hist r ↔
      |(r.value : ℝ) - (specMean (recentSlice hist) : ℝ)| >
        2 * specStdDev (recentSlice hist) := by
  have hmean : rollingMean (recentSlice hist) = specMean (recentSlice hist) := by
    unfold rollingMean specMean sumValues
    rw [foldl_add_value]
    rw [zero_add]
  have hvar : rollingVariance (recentSlice hist) =
      ((recentSlice hist).map
          (fun rd => (rd.value - specMean (recentSlice hist)) ^ 2)).sum /
        (recentSlice hist).length := by
    unfold rollingVariance sumSquaredDeviations
    rw [hmean, foldl_add_sqdev, zero_add]
  simp only [detectAnomaly]
  rw [if_neg (by omega)]
  unfold specStdDev
  rw [hmean, hvar]

/-- Claim C4 (amended), instantiated on a concrete five-reading history. -/
theorem detectAnomaly_iff_zscore_witness :
    5 ≤ (recentSlice fiveHistory).length ∧
    (detectAnomaly fiveHistory (sampleReading 5) ↔
      |((sampleReading 5).value : ℝ) - (specMean (recentSlice fiveHistory) : ℝ)| >
        2 * specStdDev (recentSlice fiveHistory)) :=
  ⟨by norm_num [recentSlice, fiveHistory],
   detectAnomaly_iff_zscore fiveHistory (sampleReading 5)
     (by norm_num [recentSlice, fiveHistory])⟩

/-- Claim C4, as frozen, is false on the code: the check runs over the
device's mixed history, not the readings of the one sensor.  Concretely,
after a device with a temperature sensor (readings at 0) and a humidity
sensor (readings at 100) pushes a new temperature reading of 0, at least
5 readings exist both device-wide and for the temperature sensor, the
source's check flags the reading as anomalous (the device-level window has
mean 90 and standard deviation 30, and 90 > 60), yet the reading deviates
from the temperature sensor's own last-10 mean by 0, not more than twice
that sensor's standard deviation — so the claimed equivalence fails. -/
theorem detectAnomaly_ignores_sensor_cex :
    pushReading cexPrior cexNew = cexHistory ∧
    5 ≤ cexHistory.length ∧
    5 ≤ (readingsOfSensor cexHistory tempSensor).length ∧
    detectAnomaly cexHistory cexNew ∧
    ¬ anomalyPerSensorClaim cexHistory tempSensor cexNew := by
  have hfilter : readingsOfSensor cexHistory tempSensor = cexTempReadings := rfl
  have hslice : recentSlice cexHistory = cexRecent := rfl
  have hmean : rollingMean cexRecent = 90 := by
    unfold rollingMean sumValues cexRecent mkReadingMeta
    norm_num [List.foldl_cons, List.foldl_nil]
  have hvar : rollingVariance cexRecent = 900 := by
    unfold rollingVariance sumSquaredDeviations
    rw [hmean]
    unfold cexRecent mkReadingMeta
    norm_num [List.foldl_cons, List.foldl_nil]
  have htmean : rollingMean cexTempReadings = 0 := by
    unfold rollingMean sumValues cexTempReadings mkReadingMeta
    norm_num [List.foldl_cons, List.foldl_nil]
  have htvar : rollingVariance cexTempReadings = 0 := by
    unfold rollingVariance sumSquaredDeviations
    rw [htmean]
    unfold cexTempReadings mkReadingMeta
    norm_num [List.foldl_cons, List.foldl_nil]
  refine ⟨rfl, by norm_num [cexHistory], ?_, ?_, ?_⟩
  · rw [hfilter]
    norm_num [cexTempReadings]
  · simp only [detectAnomaly, hslice]
    rw [if_neg (by norm_num [cexRecent])]
    rw [hmean, hvar]
    have h900 : Real.sqrt ((900 : ℚ) : ℝ) = 30 := by
      rw [show ((900 : ℚ) : ℝ) = (30 : ℝ) ^ 2 by norm_num, Real.sqrt_sq (by norm_num)]
    rw [h900]
    norm_num [cexNew, mkReadingMeta]
  · simp only [anomalyPerSensorClaim, hfilter]
    rw [show recentSlice cexTempReadings = cexTempReadings from rfl]
    rw [htmean, htvar]
    norm_num [cexNew, mkReadingMeta, Real.sqrt_zero]

end IoT
